import Mathlib

/-!
Shallow embedding of `src/bin/tuser.rs` (twitch-info-bot): a chat-command
handler that authenticates a request, turns the command text into a batched
Twitch Helix user-lookup URL, and maps the directory response into a Slack
message. Pure data flow is modelled directly; HTTP transport and secret
retrieval are modelled as explicit inputs (the transport outcome and the
secrets-fetch outcome are parameters of the handler).
-/

/-- Mirrors the Rust struct `Secrets` deserialized from the secret store. -/
structure Secrets where
  slack_token : String
  twitch_client_id : String
  twitch_client_secret : String
  twitch_app_token : String
deriving DecidableEq

/-- Mirrors the Rust struct `UserSearchRequest` parsed from the request body. -/
structure UserSearchRequest where
  token : String
  text : String
deriving DecidableEq

/-- Mirrors the Rust struct `SlackAttachment`. -/
structure SlackAttachment where
  color : String
  author_name : String
  author_icon : String
deriving DecidableEq

/-- Mirrors the Rust struct `SlackMessage`. -/
structure SlackMessage where
  response_type : String
  text : String
  attachments : List SlackAttachment
deriving DecidableEq

/-- Mirrors the Rust struct `TwitchUser` (one record of the directory reply). -/
structure TwitchUser where
  user_type : String
  id : String
  login : String
  display_name : String
  broadcaster_type : String
  description : String
  profile_image_url : String
  offline_image_url : String
deriving DecidableEq

/-- Mirrors the Rust struct `TwitchUserResponse`. -/
structure TwitchUserResponse where
  data : List TwitchUser
deriving DecidableEq

instance {α β : Type} [DecidableEq α] [DecidableEq β] : DecidableEq (Except α β) := fun x y =>
  match x, y with
  | Except.error a, Except.error b =>
    if h : a = b then isTrue (congrArg Except.error h)
    else isFalse (fun hh => h (by injection hh))
  | Except.error _, Except.ok _ => isFalse (fun hh => by injection hh)
  | Except.ok _, Except.error _ => isFalse (fun hh => by injection hh)
  | Except.ok a, Except.ok b =>
    if h : a = b then isTrue (congrArg Except.ok h)
    else isFalse (fun hh => h (by injection hh))

/-- Outcome of the outbound HTTP call in `get_user_info`: either the transport
failed (`reqwest` returned `Err`), or a response arrived with a status code and
a body whose JSON decoding into `TwitchUserResponse` either succeeds or fails. -/
inductive HttpResponse where
  | ok (status : Nat) (body : Except String TwitchUserResponse)
  | err (e : String)
deriving DecidableEq

/-- Helper for `split_whitespace`: walks the characters, accumulating the
current word (reversed); whitespace flushes the accumulated word if non-empty. -/
def splitWsAux : List Char → List Char → List String
  | [], acc => if acc = [] then [] else [⟨acc.reverse⟩]
  | c :: cs, acc =>
    if c.isWhitespace then
      (if acc = [] then [] else [⟨acc.reverse⟩]) ++ splitWsAux cs []
    else splitWsAux cs (c :: acc)

/-- Mirrors Rust `str::split_whitespace`: split on runs of whitespace,
yielding only non-empty words. -/
def split_whitespace (s : String) : List String :=
  splitWsAux s.data []

/-- Mirrors Rust `str::trim_matches(',')`: strip leading and trailing comma
characters. -/
def trim_matches_comma (s : String) : String :=
  ⟨(((s.data.dropWhile (fun c => c = ',')).reverse).dropWhile
      (fun c => c = ',')).reverse⟩

/-- One accumulation step of Rust u32 decimal parsing. -/
def u32_step (acc : Nat) (c : Char) : Nat :=
  acc * 10 + (c.toNat - 48)

/-- Digit loop of Rust `u32::from_str`: each character must be an ASCII digit
and the running value must stay within `u32::MAX` (checked multiply/add). -/
def parse_u32_core : List Char → Nat → Option Nat
  | [], acc => some acc
  | c :: rest, acc =>
    if c.isDigit then
      if u32_step acc c ≤ 4294967295 then parse_u32_core rest (u32_step acc c)
      else none
    else none

/-- Mirrors Rust `str::parse::<u32>()`: optional leading plus sign, then a
non-empty run of decimal digits whose value fits in 32 unsigned bits. -/
def parse_u32 (s : String) : Option Nat :=
  match s.data with
  | [] => none
  | c :: rest =>
    if c = '+' then
      match rest with
      | [] => none
      | d :: ds => parse_u32_core (d :: ds) 0
    else parse_u32_core (c :: rest) 0

/-- Numeric value of a decimal digit string, as the parse loop accumulates it. -/
def decimal_value (s : String) : Nat :=
  s.data.foldl u32_step 0

/-- The token loop of `generate_api_url`: for each whitespace token, strip
edge commas; if the trimmed value parses as u32 push `id=<trimmed>` onto the
id list, otherwise push `login=<trimmed>` onto the login list, preserving
input order within each list. -/
def partition_tokens : List String → List String × List String
  | [] => ([], [])
  | item :: rest =>
    let trimmed := trim_matches_comma item
    let r := partition_tokens rest
    match parse_u32 trimmed with
    | some _ => (("id=" ++ trimmed) :: r.1, r.2)
    | none => (r.1, ("login=" ++ trimmed) :: r.2)

/-- Mirrors Rust `generate_api_url`: tokenize and classify the text, fail when
both lists are empty, otherwise render the single batched Helix URL with all
id parameters first (followed by a joining ampersand) and login parameters
last. -/
def generate_api_url (text : String) : Except String String :=
  let p := partition_tokens (split_whitespace text)
  let ids := p.1
  let logins := p.2
  if ids.length = 0 ∧ logins.length = 0 then
    Except.error "No valid Twitch usernames or IDs found"
  else
    let params := if ids.length > 0 then String.intercalate "&" ids ++ "&" else ""
    let params2 := params ++ (if logins.length > 0 then String.intercalate "&" logins else "")
    Except.ok ("https://api.twitch.tv/helix/users?" ++ params2)

/-- Mirrors Rust `get_user_info`: on transport failure report a request error;
on any status other than 200 report a non-200 error; otherwise map each decoded
record to an attachment card (fixed color, `display_name: id` author line,
profile image as icon), and report a decode error when the body does not parse. -/
def get_user_info (url : String) (secrets : Secrets) (resp : HttpResponse) :
    Except String (List SlackAttachment) :=
  match resp with
  | HttpResponse.ok status body =>
    if status ≠ 200 then Except.error "Received non-200 response from Twitch"
    else
      match body with
      | Except.ok arr =>
        Except.ok (arr.data.map (fun a =>
          ⟨"#73535ad", a.display_name ++ ": " ++ a.id, a.profile_image_url⟩))
      | Except.error _e => Except.error "Could non decode Twitch response"
  | HttpResponse.err _e => Except.error "Request to Twitch failed"

/-- Mirrors Rust `search_for_users`: reject an empty token, propagate a
secrets-fetch failure, reject a token mismatch, propagate a query-build
failure, then call the directory and convert only that call's failure into the
generic in-channel failure message. -/
def search_for_users (req : UserSearchRequest)
    (secretsResult : Except String Secrets)
    (resp : HttpResponse) : Except String SlackMessage :=
  if req.token = "" then Except.error "No Slack token provided"
  else
    match secretsResult with
    | Except.error e => Except.error e
    | Except.ok secrets =>
      if req.token ≠ secrets.slack_token then Except.error "Bad Slack token provided"
      else
        match generate_api_url req.text with
        | Except.error e => Except.error e
        | Except.ok url =>
          match get_user_info url secrets resp with
          | Except.ok users => Except.ok ⟨"in_channel", "", users⟩
          | Except.error _e =>
            Except.ok ⟨"in_channel", "User lookup failed for " ++ req.text, []⟩


theorem string_append_assoc (a b c : String) : (a ++ b) ++ c = a ++ (b ++ c) := by
  apply String.ext
  simp

theorem string_append_empty (a : String) : a ++ "" = a := by
  apply String.ext
  simp

theorem partition_tokens_count (ts : List String) :
    (partition_tokens ts).1.length + (partition_tokens ts).2.length = ts.length := by
  induction ts with
  | nil => simp [partition_tokens]
  | cons item rest ih =>
    simp only [partition_tokens]
    cases hp : parse_u32 (trim_matches_comma item) <;> simp [hp] <;> omega

theorem partition_tokens_id_shape (ts : List String) :
    ∀ q ∈ (partition_tokens ts).1,
      ∃ t, t ∈ ts ∧ q = "id=" ++ trim_matches_comma t := by
  induction ts with
  | nil => simp [partition_tokens]
  | cons item rest ih =>
    intro q hq
    simp only [partition_tokens] at hq
    cases hp : parse_u32 (trim_matches_comma item) <;> rw [hp] at hq
    · obtain ⟨t, ht, hte⟩ := ih q hq
      exact ⟨t, List.mem_cons_of_mem _ ht, hte⟩
    · rcases List.mem_cons.mp hq with h | h
      · exact ⟨item, List.mem_cons_self _ _, h⟩
      · obtain ⟨t, ht, hte⟩ := ih q h
        exact ⟨t, List.mem_cons_of_mem _ ht, hte⟩

theorem partition_tokens_login_shape (ts : List String) :
    ∀ q ∈ (partition_tokens ts).2,
      ∃ t, t ∈ ts ∧ q = "login=" ++ trim_matches_comma t := by
  induction ts with
  | nil => simp [partition_tokens]
  | cons item rest ih =>
    intro q hq
    simp only [partition_tokens] at hq
    cases hp : parse_u32 (trim_matches_comma item) <;> rw [hp] at hq
    · rcases List.mem_cons.mp hq with h | h
      · exact ⟨item, List.mem_cons_self _ _, h⟩
      · obtain ⟨t, ht, hte⟩ := ih q h
        exact ⟨t, List.mem_cons_of_mem _ ht, hte⟩
    · obtain ⟨t, ht, hte⟩ := ih q hq
      exact ⟨t, List.mem_cons_of_mem _ ht, hte⟩

/-- Claim C1 counterexample: an authentication mismatch and a query-build
failure both make the handler return an error (the invocation aborts), not a
successful outbound message carrying the generic failure text. -/
theorem C1_counterexample :
    search_for_users ⟨"wrong", "ninja"⟩
        (Except.ok ⟨"secret", "cid", "cs", "app"⟩) (HttpResponse.err "down") =
      Except.error "Bad Slack token provided" ∧
    search_for_users ⟨"secret", " "⟩
        (Except.ok ⟨"secret", "cid", "cs", "app"⟩) (HttpResponse.err "down") =
      Except.error "No valid Twitch usernames or IDs found" := by
  constructor <;> decide

/-- Claim C1 (amended): only a directory-call failure is caught at the handler
boundary and converted into a successful outbound message with text
"User lookup failed for {originalText}" and empty attachments; an empty token,
a secrets-fetch (configuration) failure, a token mismatch, and a query-build
failure all abort the invocation with an error and produce no chat response. -/
theorem C1_error_boundary (req : UserSearchRequest) (secrets : Secrets)
    (resp : HttpResponse) :
    (req.token = "" →
      search_for_users req (Except.ok secrets) resp =
        Except.error "No Slack token provided") ∧
    (∀ e, req.token ≠ "" →
      search_for_users req (Except.error e) resp = Except.error e) ∧
    (req.token ≠ "" → req.token ≠ secrets.slack_token →
      search_for_users req (Except.ok secrets) resp =
        Except.error "Bad Slack token provided") ∧
    (∀ e, req.token ≠ "" → req.token = secrets.slack_token →
      generate_api_url req.text = Except.error e →
      search_for_users req (Except.ok secrets) resp = Except.error e) ∧
    (∀ url e, req.token ≠ "" → req.token = secrets.slack_token →
      generate_api_url req.text = Except.ok url →
      get_user_info url secrets resp = Except.error e →
      search_for_users req (Except.ok secrets) resp =
        Except.ok ⟨"in_channel", "User lookup failed for " ++ req.text, []⟩) := by
  refine ⟨?_, ?_, ?_, ?_, ?_⟩
  · intro h
    simp [search_for_users, h]
  · intro e h1
    simp [search_for_users, h1]
  · intro h1 h2
    simp [search_for_users, h1, h2]
  · intro e h1 h2 hgen
    rw [h2] at h1
    simp [search_for_users, h1, h2, hgen]
  · intro url e h1 h2 hgen hget
    rw [h2] at h1
    simp [search_for_users, h1, h2, hgen, hget]

/-- Claim C1 witness: concrete runs through the directory-failure branch and
the secrets-fetch failure branch. -/
theorem C1_error_boundary_witness :
    search_for_users ⟨"secret", "ninja"⟩
        (Except.ok ⟨"secret", "cid", "cs", "app"⟩) (HttpResponse.err "down") =
      Except.ok ⟨"in_channel", "User lookup failed for " ++ "ninja", []⟩ ∧
    search_for_users ⟨"secret", "ninja"⟩
        (Except.error "secret unavailable") (HttpResponse.err "down") =
      Except.error "secret unavailable" :=
  ⟨(C1_error_boundary ⟨"secret", "ninja"⟩ ⟨"secret", "cid", "cs", "app"⟩
      (HttpResponse.err "down")).2.2.2.2
    "https://api.twitch.tv/helix/users?login=ninja" "Request to Twitch failed"
    (by decide) rfl rfl rfl,
   (C1_error_boundary ⟨"secret", "ninja"⟩ ⟨"secret", "cid", "cs", "app"⟩
      (HttpResponse.err "down")).2.1
    "secret unavailable" (by decide)⟩

/-- Claim C2 counterexample: the bare-comma token trims to the empty string,
and the builder classifies it as a login name (pushing a `login=` parameter)
rather than dropping it; the resulting query even renders an URL ending in an
empty `login=` parameter. -/
theorem C2_counterexample :
    partition_tokens (split_whitespace ",") = (([] : List String), ["login="]) ∧
    generate_api_url "," =
      Except.ok "https://api.twitch.tv/helix/users?login=" := by
  constructor <;> decide

/-- Claim C2 (amended): a whitespace-delimited token that is empty after
stripping edge commas is not dropped: it fails u32 parsing and is pushed onto
the login list as the empty-valued parameter `login=`, while the id list is
untouched. -/
theorem C2_empty_token_login (item : String) (rest : List String)
    (h : trim_matches_comma item = "") :
    partition_tokens (item :: rest) =
      ((partition_tokens rest).1, "login=" :: (partition_tokens rest).2) := by
  simp [partition_tokens, h, parse_u32]

/-- Claim C2 witness: the bare comma token on an empty tail. -/
theorem C2_empty_token_login_witness :
    partition_tokens [","] = (([] : List String), ["login="]) := by
  rw [C2_empty_token_login "," [] (by decide)]
  decide

/-- Claim C3 counterexample: on "123, foo 456,,bar" the builder does not
produce numeric ids \x7b123, 456\x7d — commas are not separators, so
"456,,bar" stays one token, fails numeric parsing, and lands in the login
list whole. -/
theorem C3_counterexample :
    partition_tokens (split_whitespace "123, foo 456,,bar") =
      (["id=123"], ["login=foo", "login=456,,bar"]) ∧
    (partition_tokens (split_whitespace "123, foo 456,,bar")).1 ≠
      ["id=123", "id=456"] := by
  constructor <;> decide

/-- Claim C3 (amended): tokens are split on whitespace only; commas are
stripped only at token edges. For input "123, foo 456,,bar" the build yields
numeric ids ["123"] and login names ["foo", "456,,bar"], in insertion order,
and renders the corresponding batched URL. -/
theorem C3_partition_example :
    partition_tokens (split_whitespace "123, foo 456,,bar") =
      (["id=123"], ["login=foo", "login=456,,bar"]) ∧
    generate_api_url "123, foo 456,,bar" =
      Except.ok "https://api.twitch.tv/helix/users?id=123&login=foo&login=456,,bar" := by
  constructor <;> decide

/-- Claim C4 counterexample: comma-only input does not fail with the
no-identifiers error — the empty trimmed token becomes `login=` and the build
succeeds. -/
theorem C4_counterexample :
    generate_api_url "," ≠
      Except.error "No valid Twitch usernames or IDs found" ∧
    generate_api_url "," =
      Except.ok "https://api.twitch.tv/helix/users?login=" := by
  constructor <;> decide

/-- Claim C4 (amended): only input with no whitespace tokens at all
(all-whitespace or empty text) makes the build fail with the no-identifiers
error — any input with at least one whitespace token makes the build succeed,
comma-only tokens included (they become empty login parameters). On failing
input the handler aborts before any directory call: its outcome does not
depend on the directory response. -/
theorem C4_whitespace_only_fails (text : String) :
    (split_whitespace text = [] →
      generate_api_url text =
        Except.error "No valid Twitch usernames or IDs found" ∧
      ∀ (tok : String) (s : Secrets) (r₁ r₂ : HttpResponse),
        search_for_users ⟨tok, text⟩ (Except.ok s) r₁ =
          search_for_users ⟨tok, text⟩ (Except.ok s) r₂) ∧
    (split_whitespace text ≠ [] →
      ∃ u, generate_api_url text = Except.ok u) := by
  constructor
  · intro h
    have hg : generate_api_url text =
        Except.error "No valid Twitch usernames or IDs found" := by
      simp [generate_api_url, h, partition_tokens]
    refine ⟨hg, ?_⟩
    intro tok s r₁ r₂
    by_cases htok : tok = ""
    · simp [search_for_users, htok]
    · by_cases hm : tok = s.slack_token
      · simp [search_for_users, htok, hm, hg]
      · simp [search_for_users, htok, hm]
  · intro hne
    have hcount := partition_tokens_count (split_whitespace text)
    have hcond : ¬((partition_tokens (split_whitespace text)).1.length = 0 ∧
        (partition_tokens (split_whitespace text)).2.length = 0) := by
      intro hc
      rw [hc.1, hc.2] at hcount
      exact hne (List.length_eq_zero.mp hcount.symm)
    cases hgen : generate_api_url text with
    | ok u => exact ⟨u, rfl⟩
    | error e =>
      exfalso
      simp only [generate_api_url] at hgen
      split at hgen
      · next hc => exact hcond hc
      · exact absurd hgen (by simp)

/-- Claim C4 witness: a single-space text fails before the directory call, and
the comma-only text succeeds. -/
theorem C4_whitespace_only_fails_witness :
    (generate_api_url " " =
        Except.error "No valid Twitch usernames or IDs found" ∧
      ∀ (tok : String) (s : Secrets) (r₁ r₂ : HttpResponse),
        search_for_users ⟨tok, " "⟩ (Except.ok s) r₁ =
          search_for_users ⟨tok, " "⟩ (Except.ok s) r₂) ∧
    (∃ u, generate_api_url "," = Except.ok u) :=
  ⟨(C4_whitespace_only_fails " ").1 (by decide),
   (C4_whitespace_only_fails ",").2 (by decide)⟩

/-- Claim C5: on a 200 response whose body decodes to N records, the fetch
succeeds with exactly N attachment cards in record order; card i carries
author name "displayName: id", the record's profile image URL as icon, and the
fixed brand color. -/
theorem C5_format_success_cards (url : String) (s : Secrets)
    (arr : TwitchUserResponse) :
    ∃ cards : List SlackAttachment,
      get_user_info url s (HttpResponse.ok 200 (Except.ok arr)) =
        Except.ok cards ∧
      cards.length = arr.data.length ∧
      ∀ (i : Nat) (hi : i < cards.length) (hj : i < arr.data.length),
        (cards.get ⟨i, hi⟩).author_name =
            (arr.data.get ⟨i, hj⟩).display_name ++ ": " ++ (arr.data.get ⟨i, hj⟩).id ∧
        (cards.get ⟨i, hi⟩).author_icon = (arr.data.get ⟨i, hj⟩).profile_image_url ∧
        (cards.get ⟨i, hi⟩).color = "#73535ad" := by
  refine ⟨arr.data.map (fun a =>
      ⟨"#73535ad", a.display_name ++ ": " ++ a.id, a.profile_image_url⟩), ?_, ?_, ?_⟩
  · simp [get_user_info]
  · simp
  · intro i hi hj
    simp [List.get_eq_getElem, List.getElem_map]

/-- Claim C5 witness: one concrete record. -/
theorem C5_format_success_cards_witness :
    ∃ cards : List SlackAttachment,
      get_user_info "u" ⟨"t", "c", "s", "a"⟩
          (HttpResponse.ok 200 (Except.ok
            ⟨[⟨"", "19571641", "ninja", "Ninja", "", "", "http://x/y.png", ""⟩]⟩)) =
        Except.ok cards ∧
      cards.length =
        (TwitchUserResponse.mk
          [⟨"", "19571641", "ninja", "Ninja", "", "", "http://x/y.png", ""⟩]).data.length ∧
      ∀ (i : Nat) (hi : i < cards.length)
        (hj : i < (TwitchUserResponse.mk
          [⟨"", "19571641", "ninja", "Ninja", "", "", "http://x/y.png", ""⟩]).data.length),
        (cards.get ⟨i, hi⟩).author_name =
            ((TwitchUserResponse.mk
              [⟨"", "19571641", "ninja", "Ninja", "", "", "http://x/y.png", ""⟩]).data.get
                ⟨i, hj⟩).display_name ++ ": " ++
            ((TwitchUserResponse.mk
              [⟨"", "19571641", "ninja", "Ninja", "", "", "http://x/y.png", ""⟩]).data.get
                ⟨i, hj⟩).id ∧
        (cards.get ⟨i, hi⟩).author_icon =
            ((TwitchUserResponse.mk
              [⟨"", "19571641", "ninja", "Ninja", "", "", "http://x/y.png", ""⟩]).data.get
                ⟨i, hj⟩).profile_image_url ∧
        (cards.get ⟨i, hi⟩).color = "#73535ad" :=
  C5_format_success_cards "u" ⟨"t", "c", "s", "a"⟩
    ⟨[⟨"", "19571641", "ninja", "Ninja", "", "", "http://x/y.png", ""⟩]⟩

/-- Claim C6: exactly status 200 is success — any other status makes the fetch
fail with the upstream error, and the handler then takes the failure path
(the generic failure message), never the success path. -/
theorem C6_non_200_is_error (url : String) (s : Secrets) (status : Nat)
    (body : Except String TwitchUserResponse) (h : status ≠ 200) :
    get_user_info url s (HttpResponse.ok status body) =
      Except.error "Received non-200 response from Twitch" ∧
    ∀ (req : UserSearchRequest) (u : String),
      req.token ≠ "" → req.token = s.slack_token →
      generate_api_url req.text = Except.ok u →
      search_for_users req (Except.ok s) (HttpResponse.ok status body) =
        Except.ok ⟨"in_channel", "User lookup failed for " ++ req.text, []⟩ := by
  have hget : get_user_info url s (HttpResponse.ok status body) =
      Except.error "Received non-200 response from Twitch" := by
    simp [get_user_info, h]
  refine ⟨hget, ?_⟩
  intro req u h1 h2 hgen
  rw [h2] at h1
  have hget2 : get_user_info u s (HttpResponse.ok status body) =
      Except.error "Received non-200 response from Twitch" := by
    simp [get_user_info, h]
  simp [search_for_users, h1, h2, hgen, hget2]

/-- Claim C6 witness: a redirect status 302 with a decodable body still fails. -/
theorem C6_non_200_is_error_witness :
    get_user_info "u" ⟨"t", "c", "s", "a"⟩
        (HttpResponse.ok 302 (Except.ok ⟨[]⟩)) =
      Except.error "Received non-200 response from Twitch" ∧
    ∀ (req : UserSearchRequest) (u : String),
      req.token ≠ "" → req.token = (Secrets.mk "t" "c" "s" "a").slack_token →
      generate_api_url req.text = Except.ok u →
      search_for_users req (Except.ok ⟨"t", "c", "s", "a"⟩)
          (HttpResponse.ok 302 (Except.ok ⟨[]⟩)) =
        Except.ok ⟨"in_channel", "User lookup failed for " ++ req.text, []⟩ :=
  C6_non_200_is_error "u" ⟨"t", "c", "s", "a"⟩ 302 (Except.ok ⟨[]⟩) (by decide)

/-- Claim C7: a 200 response decoding to an empty record list yields a success
message with empty text and empty attachments — not the failure text. -/
theorem C7_empty_result_success (req : UserSearchRequest) (s : Secrets)
    (u : String) (h1 : req.token ≠ "") (h2 : req.token = s.slack_token)
    (hgen : generate_api_url req.text = Except.ok u) :
    search_for_users req (Except.ok s) (HttpResponse.ok 200 (Except.ok ⟨[]⟩)) =
      Except.ok ⟨"in_channel", "", []⟩ := by
  rw [h2] at h1
  simp [search_for_users, h1, h2, hgen, get_user_info]

/-- Claim C7 witness: a concrete empty directory result. -/
theorem C7_empty_result_success_witness :
    search_for_users ⟨"secret", "ninja"⟩ (Except.ok ⟨"secret", "c", "s", "a"⟩)
        (HttpResponse.ok 200 (Except.ok ⟨[]⟩)) =
      Except.ok ⟨"in_channel", "", []⟩ :=
  C7_empty_result_success ⟨"secret", "ninja"⟩ ⟨"secret", "c", "s", "a"⟩
    "https://api.twitch.tv/helix/users?login=ninja" (by decide) rfl rfl


/-- Claim C8: a successful build renders one single batched URL on the fixed
base endpoint: the token lists contribute exactly one parameter per token,
every id-list entry is an `id=<trimmed>` parameter and every login-list entry
a `login=<trimmed>` parameter, and the id parameters are serialized (joined by
ampersands) before all login parameters. -/
theorem C8_batched_url_shape (text url : String)
    (h : generate_api_url text = Except.ok url) :
    ((partition_tokens (split_whitespace text)).1.length +
      (partition_tokens (split_whitespace text)).2.length =
        (split_whitespace text).length) ∧
    (∀ q ∈ (partition_tokens (split_whitespace text)).1,
      ∃ t, t ∈ split_whitespace text ∧ q = "id=" ++ trim_matches_comma t) ∧
    (∀ q ∈ (partition_tokens (split_whitespace text)).2,
      ∃ t, t ∈ split_whitespace text ∧ q = "login=" ++ trim_matches_comma t) ∧
    url = "https://api.twitch.tv/helix/users?" ++
      ((if (partition_tokens (split_whitespace text)).1.length > 0 then
          String.intercalate "&" (partition_tokens (split_whitespace text)).1 ++ "&"
        else "") ++
       (if (partition_tokens (split_whitespace text)).2.length > 0 then
          String.intercalate "&" (partition_tokens (split_whitespace text)).2
        else "")) := by
  refine ⟨partition_tokens_count _, partition_tokens_id_shape _,
    partition_tokens_login_shape _, ?_⟩
  simp only [generate_api_url] at h
  split at h
  · exact absurd h (by simp)
  · injection h with h
    exact h.symm

/-- Claim C8 witness: the URL for "123 foo". -/
theorem C8_batched_url_shape_witness :
    (partition_tokens (split_whitespace "123 foo")).1.length +
      (partition_tokens (split_whitespace "123 foo")).2.length =
        (split_whitespace "123 foo").length :=
  (C8_batched_url_shape "123 foo"
    "https://api.twitch.tv/helix/users?id=123&login=foo" (by decide)).1

theorem parse_u32_core_val (ds : List Char) :
    ∀ (acc v : Nat), parse_u32_core ds acc = some v → v = ds.foldl u32_step acc := by
  induction ds with
  | nil =>
    intro acc v h
    injection h with h
    simp [h]
  | cons c rest ih =>
    intro acc v h
    simp only [parse_u32_core] at h
    by_cases hd : c.isDigit = true
    · rw [if_pos hd] at h
      by_cases hle : u32_step acc c ≤ 4294967295
      · rw [if_pos hle] at h
        simpa [List.foldl] using ih _ _ h
      · rw [if_neg hle] at h
        exact absurd h (by simp)
    · rw [if_neg hd] at h
      exact absurd h (by simp)

theorem parse_u32_core_le (ds : List Char) :
    ∀ (acc v : Nat), ds ≠ [] → parse_u32_core ds acc = some v → v ≤ 4294967295 := by
  induction ds with
  | nil =>
    intro acc v h
    exact absurd rfl h
  | cons c rest ih =>
    intro acc v _ h
    simp only [parse_u32_core] at h
    by_cases hd : c.isDigit = true
    · rw [if_pos hd] at h
      by_cases hle : u32_step acc c ≤ 4294967295
      · rw [if_pos hle] at h
        cases rest with
        | nil =>
          simp only [parse_u32_core] at h
          injection h with h
          rw [← h]
          exact hle
        | cons d dd => exact ih _ _ (by simp) h
      · rw [if_neg hle] at h
        exact absurd h (by simp)
    · rw [if_neg hd] at h
      exact absurd h (by simp)

/-- Claim C9: a trimmed token that is a non-empty all-digit numeral whose
value exceeds u32::MAX (4294967295) fails u32 parsing, so the token is
classified as a login name, not a numeric id. -/
theorem C9_u32_overflow_login (token : String) (rest : List String)
    (hne : trim_matches_comma token ≠ "")
    (hdig : (trim_matches_comma token).data.all (fun c => c.isDigit) = true)
    (hbig : 4294967295 < decimal_value (trim_matches_comma token)) :
    parse_u32 (trim_matches_comma token) = none ∧
    partition_tokens (token :: rest) =
      ((partition_tokens rest).1,
        ("login=" ++ trim_matches_comma token) :: (partition_tokens rest).2) := by
  have hparse : parse_u32 (trim_matches_comma token) = none := by
    cases hd : (trim_matches_comma token).data with
    | nil => exact absurd (String.ext (by simp [hd])) hne
    | cons c cs =>
      have hcdig : c.isDigit = true := by
        rw [hd] at hdig
        simp [List.all_cons] at hdig
        exact hdig.1
      have hplus : ¬(c = '+') := by
        intro hc
        rw [hc] at hcdig
        exact absurd hcdig (by decide)
      cases hres : parse_u32 (trim_matches_comma token) with
      | none => rfl
      | some v =>
        exfalso
        have hcore : parse_u32_core (c :: cs) 0 = some v := by
          simp only [parse_u32, hd] at hres
          rwa [if_neg hplus] at hres
        have hv := parse_u32_core_val _ _ _ hcore
        have hle := parse_u32_core_le _ _ _ (by simp) hcore
        rw [hv] at hle
        have hdv : decimal_value (trim_matches_comma token) =
            (c :: cs).foldl u32_step 0 := by
          rw [decimal_value, hd]
        rw [hdv] at hbig
        omega
  refine ⟨hparse, ?_⟩
  simp [partition_tokens, hparse]

/-- Claim C9 witness: 4294967296 = u32::MAX + 1 lands in the login list. -/
theorem C9_u32_overflow_login_witness :
    parse_u32 (trim_matches_comma "4294967296") = none ∧
    partition_tokens ["4294967296"] =
      ((partition_tokens ([] : List String)).1,
        ("login=" ++ trim_matches_comma "4294967296") ::
          (partition_tokens ([] : List String)).2) :=
  C9_u32_overflow_login "4294967296" [] (by decide) (by decide) (by decide)

/-- Claim C10: when the build produced at least one numeric id and no login
names, the rendered URL ends with a trailing ampersand: the joined id
parameters are always followed by the separator even with nothing after it. -/
theorem C10_trailing_ampersand (text url : String)
    (h : generate_api_url text = Except.ok url)
    (hids : (partition_tokens (split_whitespace text)).1 ≠ [])
    (hlog : (partition_tokens (split_whitespace text)).2 = []) :
    ∃ p, url = p ++ "&" := by
  refine ⟨"https://api.twitch.tv/helix/users?" ++
      String.intercalate "&" (partition_tokens (split_whitespace text)).1, ?_⟩
  have hlen : (partition_tokens (split_whitespace text)).1.length > 0 :=
    List.length_pos.mpr hids
  simp only [generate_api_url, hlog] at h
  split at h
  · exact absurd h (by simp)
  · injection h with h
    rw [← h]
    apply String.ext
    simp

/-- Claim C10 witness: text "123" renders a URL with a trailing ampersand. -/
theorem C10_trailing_ampersand_witness :
    ∃ p, "https://api.twitch.tv/helix/users?id=123&" = p ++ "&" :=
  C10_trailing_ampersand "123" "https://api.twitch.tv/helix/users?id=123&"
    (by decide) (by decide) (by decide)
